import Mathlib

/-!
Shallow embedding of the vercel-cron repository: the FTP upload workflow of
src/services/ftp_client.py and the data/CSV stage of
src/services/csv_generator.py.

Modelling conventions, shared by all definitions below:
the remote FTP server and the network are abstracted as an oracle
(`FTPServer`) giving the outcome of each protocol operation; Python
exceptions are values of an explicit type `PyExc`; every fallible Python
method is a total Lean function returning its structured result together
with the list of FTP commands it attempted (the trace).  Python dicts that
omit keys are modelled with `Option` fields.
-/

/-- Python exception as distinguished by the except clauses of
ftp_client.py: `ftplib.error_perm`, any other member of
`ftplib.all_errors`, and any non-ftplib `Exception`.  The carried string
is what `str(e)` yields. -/
inductive PyExc where
  | ftpPerm (m : String)
  | ftpOther (m : String)
  | other (m : String)
deriving DecidableEq

/-- Python `str(e)` for a modelled exception. -/
def PyExc.msg : PyExc → String
  | PyExc.ftpPerm m => m
  | PyExc.ftpOther m => m
  | PyExc.other m => m

/-- One FTP operation attempted by ftp_client.py on a connection
(`ftp.connect`, `ftp.login`, `ftp.prot_p`, `ftp.set_pasv`, `ftp.cwd`,
`ftp.storbinary`, `ftp.pwd`, `ftp.nlst`, `ftp.mkd`, `ftp.quit`). -/
inductive FTPAction where
  | connect
  | login
  | protP
  | setPasv
  | cwd (d : String)
  | stor (f : String)
  | pwd
  | nlst
  | mkd (d : String)
  | quit
deriving DecidableEq

/-- Oracle describing what the remote server (and network) answers to each
FTP operation: either the returned value or the Python exception raised.
`connect` absorbs hostname/port reachability, `stor`, `cwd` and `mkd` may
depend on their string argument. -/
structure FTPServer where
  connectR : Except PyExc Unit
  loginR : Except PyExc Unit
  protPR : Except PyExc Unit
  cwdR : String → Except PyExc String
  storR : String → Except PyExc String
  pwdR : Except PyExc String
  nlstR : Except PyExc (List String)
  mkdR : String → Except PyExc String
  quitR : Except PyExc Unit

/-- The connection-relevant part of `self.config` consumed by
`ftp_connection` (hostname and port only feed `ftp.connect`, which the
oracle absorbs). -/
structure FTPConfig where
  hostname : String
  port : Int
  remote_dir : String
  use_tls : Bool
deriving DecidableEq

/-- Body of the `ftp_connection` context manager up to and including the
`yield` point: connect, login, `prot_p` when `use_tls`, `set_pasv`, and
`cwd` into `remote_dir` when it is not `"/"`.  Returns the first exception
raised (re-raised unchanged by the except clauses of `ftp_connection`)
and the trace of operations attempted. -/
def setupConn (cfg : FTPConfig) (srv : FTPServer) :
    Except PyExc Unit × List FTPAction :=
  match srv.connectR with
  | Except.error e => (Except.error e, [FTPAction.connect])
  | Except.ok _ =>
    match srv.loginR with
    | Except.error e => (Except.error e, [FTPAction.connect, FTPAction.login])
    | Except.ok _ =>
      match (if cfg.use_tls then srv.protPR else Except.ok ()) with
      | Except.error e =>
          (Except.error e,
           [FTPAction.connect, FTPAction.login] ++
             (if cfg.use_tls then [FTPAction.protP] else []))
      | Except.ok _ =>
        match (if cfg.remote_dir ≠ "/" then
                 Except.map (fun _ => ()) (srv.cwdR cfg.remote_dir)
               else Except.ok ()) with
        | Except.error e =>
            (Except.error e,
             [FTPAction.connect, FTPAction.login] ++
               (if cfg.use_tls then [FTPAction.protP] else []) ++
               [FTPAction.setPasv, FTPAction.cwd cfg.remote_dir])
        | Except.ok _ =>
            (Except.ok (),
             [FTPAction.connect, FTPAction.login] ++
               (if cfg.use_tls then [FTPAction.protP] else []) ++
               [FTPAction.setPasv] ++
               (if cfg.remote_dir ≠ "/" then [FTPAction.cwd cfg.remote_dir] else []))

/-- Finally-block of `ftp_connection`: `ftp.quit()` wrapped in a bare
try/except, so its outcome is observed and then discarded whatever it is. -/
def tryQuit (srv : FTPServer) : Unit :=
  match srv.quitR with
  | Except.ok _ => ()
  | Except.error _ => ()

/-- Execution of `with self.ftp_connection() as ftp: body`.  The
connection object is always created (`ftplib.FTP()` itself cannot fail),
so the finally-block always attempts `quit`; an exception in setup or in
the body propagates past it unchanged.  `body` receives the trace so far
and returns its own outcome and extended trace. -/
def withFtpConnection {α : Type} (cfg : FTPConfig) (srv : FTPServer)
    (body : List FTPAction → Except PyExc α × List FTPAction) :
    Except PyExc α × List FTPAction :=
  let s := setupConn cfg srv
  let r : Except PyExc α × List FTPAction :=
    match s.1 with
    | Except.error e => (Except.error e, s.2)
    | Except.ok _ => body s.2
  let _ := tryQuit srv
  (r.1, r.2 ++ [FTPAction.quit])

/-- Result dict of `upload_csv_string`; keys absent from the Python dict
on a given path are `none`. -/
structure UploadResult where
  success : Bool
  filename : String
  size_bytes : Option Nat
  message : String
  error : Option String
deriving DecidableEq

/-- Python `str.startswith` on the decoded character sequence (used for
the `result.startswith` check on the server response). -/
def pyStartswith (s p : String) : Bool :=
  List.isPrefixOf p.data s.data

/-- Result dict built by the two except clauses of `upload_csv_string`
for members of `ftplib.all_errors`. -/
def uploadFtpErrorResult (filename m : String) : UploadResult :=
  { success := false, filename := filename, size_bytes := none,
    error := some m, message := "FTP upload failed: " ++ m }

/-- FTPClient.upload_csv_string: open the connection, encode the content
as UTF-8, `storbinary` it under `filename`, classify the completion
response by its `226` class, and normalize every raised exception into a
failure dict. -/
def upload_csv_string (cfg : FTPConfig) (srv : FTPServer)
    (csv_content filename : String) : UploadResult × List FTPAction :=
  let run := withFtpConnection cfg srv (fun tr =>
    match srv.storR filename with
    | Except.error e => (Except.error e, tr ++ [FTPAction.stor filename])
    | Except.ok result =>
      if pyStartswith result "226" then
        (Except.ok { success := true, filename := filename,
                     size_bytes := some csv_content.utf8ByteSize,
                     message := "Upload completed successfully",
                     error := none },
         tr ++ [FTPAction.stor filename])
      else
        (Except.ok { success := false, filename := filename,
                     size_bytes := none,
                     message := "Unexpected FTP response: " ++ result,
                     error := none },
         tr ++ [FTPAction.stor filename]))
  match run.1 with
  | Except.ok r => (r, run.2)
  | Except.error (PyExc.ftpPerm m) => (uploadFtpErrorResult filename m, run.2)
  | Except.error (PyExc.ftpOther m) => (uploadFtpErrorResult filename m, run.2)
  | Except.error (PyExc.other m) =>
      ({ success := false, filename := filename, size_bytes := none,
         error := some m, message := "Unexpected error during upload: " ++ m },
       run.2)

/-- Result dict of `test_connection`; keys absent on the failure path are
`none`. -/
structure TestConnResult where
  success : Bool
  current_directory : Option String
  sample_files : Option (List String)
  message : String
  error : Option String
deriving DecidableEq

/-- FTPClient.test_connection: open the connection, read `pwd`, read at
most five entries of `nlst` with a bare try/except that degrades a listing
failure to a placeholder list, and normalize every raised exception into a
failure dict. -/
def test_connection (cfg : FTPConfig) (srv : FTPServer) :
    TestConnResult × List FTPAction :=
  let run := withFtpConnection cfg srv (fun tr =>
    match srv.pwdR with
    | Except.error e => (Except.error e, tr ++ [FTPAction.pwd])
    | Except.ok current_dir =>
      let file_list : List String :=
        match srv.nlstR with
        | Except.ok l => l.take 5
        | Except.error _ => ["(unable to list files)"]
      (Except.ok { success := true,
                   current_directory := some current_dir,
                   sample_files := some file_list,
                   message := "Connection test successful",
                   error := none },
       tr ++ [FTPAction.pwd, FTPAction.nlst]))
  match run.1 with
  | Except.ok r => (r, run.2)
  | Except.error e =>
      ({ success := false, current_directory := none, sample_files := none,
         message := "FTP connection test failed: " ++ e.msg,
         error := some e.msg },
       run.2)

/-- FTPClient.create_directory_if_not_exists: open the connection, `cwd`
into `directory`; on `ftplib.error_perm` attempt `mkd`; any other raised
exception is caught by the outer except clause and reported as `false`. -/
def create_directory_if_not_exists (cfg : FTPConfig) (srv : FTPServer)
    (directory : String) : Bool × List FTPAction :=
  let run := withFtpConnection cfg srv (fun tr =>
    match srv.cwdR directory with
    | Except.ok _ => (Except.ok true, tr ++ [FTPAction.cwd directory])
    | Except.error (PyExc.ftpPerm _) =>
      match srv.mkdR directory with
      | Except.ok _ =>
          (Except.ok true, tr ++ [FTPAction.cwd directory, FTPAction.mkd directory])
      | Except.error e =>
          (Except.error e, tr ++ [FTPAction.cwd directory, FTPAction.mkd directory])
    | Except.error e => (Except.error e, tr ++ [FTPAction.cwd directory]))
  match run.1 with
  | Except.ok b => (b, run.2)
  | Except.error _ => (false, run.2)

/-- Python value as stored in the configuration dict: `None`, a string,
an int, or a bool (the env-derived dict mixes these types). -/
inductive PyVal where
  | vNone
  | vStr (s : String)
  | vInt (n : Int)
  | vBool (b : Bool)
deriving DecidableEq

/-- Python truthiness of a configuration value (what `not
self.config.get(field)` tests). -/
def PyVal.truthy : PyVal → Bool
  | PyVal.vNone => false
  | PyVal.vStr s => s ≠ ""
  | PyVal.vInt n => n ≠ 0
  | PyVal.vBool b => b

/-- Python dict of configuration entries (first binding of a key wins,
as dict keys are unique). -/
def PyDict : Type := List (String × PyVal)

instance : DecidableEq PyDict := by
  unfold PyDict
  infer_instance

/-- Python `dict.get(key)`: the stored value, or `None` when absent. -/
def pyGet (d : PyDict) (k : String) : PyVal :=
  match List.find? (fun kv => kv.1 == k) d with
  | some kv => kv.2
  | none => PyVal.vNone

/-- Python `int(s)` as used on `os.getenv("FTP_PORT", "21")`: strips
surrounding whitespace, accepts an optional sign followed by at least one
digit, and raises `ValueError` otherwise. -/
def pyIntOfString (s : String) : Except String Int :=
  let t := s.trim
  let neg : Bool := pyStartswith t "-"
  let core : String :=
    if pyStartswith t "-" || pyStartswith t "+" then t.drop 1 else t
  if core ≠ "" ∧ core.data.all Char.isDigit then
    let n : Nat := core.data.foldl (fun a c => 10 * a + (c.toNat - 48)) 0
    Except.ok (if neg then -(n : Int) else (n : Int))
  else Except.error ("invalid literal for int with base 10: " ++ s)

/-- Option-valued `os.getenv` result as a dict value. -/
def optToVal : Option String → PyVal
  | some s => PyVal.vStr s
  | none => PyVal.vNone

/-- Value of `os.getenv(name, default)`. -/
def getenvD (env : String → Option String) (k dflt : String) : String :=
  match env k with
  | some s => s
  | none => dflt

/-- Configuration dict built from the six FTP environment variables in
`FTPClient.__init__` when no truthy config argument is given;
`int(os.getenv("FTP_PORT", "21"))` can raise, which makes construction
fail before validation. -/
def envConfigE (env : String → Option String) : Except String PyDict :=
  match pyIntOfString (getenvD env "FTP_PORT" "21") with
  | Except.error m => Except.error m
  | Except.ok port =>
      Except.ok
        [("hostname", optToVal (env "FTP_HOSTNAME")),
         ("username", optToVal (env "FTP_USERNAME")),
         ("password", optToVal (env "FTP_PASSWORD")),
         ("port", PyVal.vInt port),
         ("remote_dir", PyVal.vStr (getenvD env "FTP_REMOTE_DIR" "/")),
         ("use_tls", PyVal.vBool ((getenvD env "FTP_USE_TLS" "false").toLower == "true"))]

/-- FTPClient._validate_config: iterate over hostname, username, password
in order and raise `ValueError("FTP configuration missing: <field>")` at
the first falsy one (the loop is unrolled here). -/
def validateConfig (c : PyDict) : Except String PyDict :=
  if (pyGet c "hostname").truthy = false then
    Except.error "FTP configuration missing: hostname"
  else if (pyGet c "username").truthy = false then
    Except.error "FTP configuration missing: username"
  else if (pyGet c "password").truthy = false then
    Except.error "FTP configuration missing: password"
  else Except.ok c

/-- FTPClient.__init__: `if config:` keeps a truthy (non-empty) explicit
dict and otherwise builds the dict from environment variables, then
validates.  The returned dict is the constructed client's `self.config`;
an error is the ValueError raised at construction time.  No server oracle
is consumed: construction performs no network activity. -/
def FTPClient_init (config : Option PyDict)
    (env : String → Option String) : Except String PyDict :=
  match config with
  | some c =>
      if c ≠ ([] : PyDict) then validateConfig c
      else
        match envConfigE env with
        | Except.error m => Except.error m
        | Except.ok c2 => validateConfig c2
  | none =>
      match envConfigE env with
      | Except.error m => Except.error m
      | Except.ok c2 => validateConfig c2

/-- Naive Python datetime at second granularity, as seconds since the
epoch (microseconds play no role in any property below). -/
structure PyDateTime where
  seconds : Int
deriving DecidableEq

/-- Python `datetime.hour` (0..23). -/
def PyDateTime.hour (t : PyDateTime) : Int :=
  (t.seconds.ediv 3600) % 24

/-- Python `datetime.weekday()`: Monday is 0; the epoch day was a
Thursday, hence the +3 offset. -/
def PyDateTime.weekday (t : PyDateTime) : Int :=
  (t.seconds.ediv 86400 + 3) % 7

/-- Python `t - timedelta(minutes=m)`. -/
def PyDateTime.subMinutes (t : PyDateTime) (m : Int) : PyDateTime :=
  ⟨t.seconds - 60 * m⟩

/-- The base_visitors table of VisitorDataGenerator.__init__. -/
structure BaseVisitors where
  morning : Int
  noon : Int
  evening : Int
  night : Int

/-- Values 15, 45, 30, 8 from the source. -/
def baseVisitors : BaseVisitors :=
  { morning := 15, noon := 45, evening := 30, night := 8 }

/-- Python `int()` on a rational value: truncation toward zero (the
float arithmetic of the source is modelled over the rationals; for the
four base values in play the truncated weekend results of binary64 and
rational arithmetic coincide: 18, 54, 36 and 9). -/
def pyTruncInt (q : ℚ) : Int :=
  q.num.tdiv q.den

/-- VisitorDataGenerator._calculate_visitor_count: pick the base from the
four time-of-day buckets, bump it by 20 percent on Saturday and Sunday,
multiply by the uniform draw from [0.7, 1.3], truncate to an int and
clamp at 0.  `variation` is the value of `random.uniform(0.7, 1.3)`. -/
def calculate_visitor_count (ts : PyDateTime) (variation : ℚ) : Int :=
  let hour := ts.hour
  let base : Int :=
    if 6 ≤ hour ∧ hour < 11 then baseVisitors.morning
    else if 11 ≤ hour ∧ hour < 15 then baseVisitors.noon
    else if 15 ≤ hour ∧ hour < 20 then baseVisitors.evening
    else baseVisitors.night
  let base2 : Int :=
    if 5 ≤ ts.weekday then pyTruncInt ((base : ℚ) * (12 / 10)) else base
  max 0 (pyTruncInt ((base2 : ℚ) * variation))

/-- One generated record.  The Python dict renders timestamp, date, time
and day_of_week as strftime strings of the same underlying datetime; the
model keeps the datetime value itself, which determines all of them. -/
structure VisitorRecord where
  timestamp : PyDateTime
  visitor_count : Int
  hour : Int
deriving DecidableEq

/-- Record built for a given timestamp and random draw. -/
def makeRecord (ts : PyDateTime) (variation : ℚ) : VisitorRecord :=
  { timestamp := ts,
    visitor_count := calculate_visitor_count ts variation,
    hour := ts.hour }

/-- VisitorDataGenerator.generate_sample_data: one record every 15
minutes walking backward from `now` for `hours_back * 4` steps, then the
accumulated list is reversed so the oldest record comes first.  `draws i`
is the value of `random.uniform(0.7, 1.3)` in iteration `i`. -/
def generate_sample_data (now : PyDateTime) (draws : Nat → ℚ)
    (hours_back : Nat) : List VisitorRecord :=
  (List.map
    (fun (i : Nat) => makeRecord (now.subMinutes (15 * (i : Int))) (draws i))
    (List.range (hours_back * 4))).reverse

/-- The `current_time.replace(minute=(minute // 15) * 15, second=0,
microsecond=0)` adjustment of generate_current_data. -/
def floorToQuarter (t : PyDateTime) : PyDateTime :=
  let minute := (t.seconds.ediv 60) % 60
  let floored := (minute.ediv 15) * 15
  ⟨t.seconds - t.seconds % 60 - 60 * minute + 60 * floored⟩

/-- VisitorDataGenerator.generate_current_data: floor the current time to
the 15-minute boundary and build a single record from it. -/
def generate_current_data (now : PyDateTime) (draw : ℚ) : VisitorRecord :=
  makeRecord (floorToQuarter now) draw

/-- Fixed fieldnames row of generate_csv_data. -/
def csvFieldnames : List String :=
  ["timestamp", "date", "time", "visitor_count", "day_of_week", "hour"]

/-- A record as handed to csv.DictWriter: the four string fields plus the
two int fields visitor_count and hour (csv renders ints with `str`). -/
structure CsvRecord where
  timestamp : String
  date : String
  time : String
  visitor_count : Nat
  day_of_week : String
  hour : Nat
deriving DecidableEq

/-- The six rendered cells of a record, in fieldnames order. -/
def CsvRecord.fields (r : CsvRecord) : List String :=
  [r.timestamp, r.date, r.time, toString r.visitor_count,
   r.day_of_week, toString r.hour]

/-- QUOTE_MINIMAL test of the csv excel dialect: a cell is quoted
exactly when it contains the delimiter, the quote char, or a char of the
line terminator. -/
def needsQuoting (cs : List Char) : Bool :=
  cs.any (fun c => c == ',' || c == '"' || c == '\r' || c == '\n')

/-- Quote-doubling of the excel dialect (doublequote=True). -/
def escapeQuotes : List Char → List Char
  | [] => []
  | c :: cs =>
      if c = '"' then '"' :: '"' :: escapeQuotes cs
      else c :: escapeQuotes cs

/-- One cell as csv.writer emits it under QUOTE_MINIMAL. -/
def encodeField (f : String) : List Char :=
  if needsQuoting f.data then '"' :: (escapeQuotes f.data ++ ['"'])
  else f.data

/-- The cells of one row joined with the `,` delimiter. -/
def encodeFields : List String → List Char
  | [] => []
  | [f] => encodeField f
  | f :: g :: rest => encodeField f ++ ',' :: encodeFields (g :: rest)

/-- Rows each terminated by the CRLF line terminator of the excel
dialect. -/
def writeRows : List (List String) → List Char
  | [] => []
  | r :: rs => encodeFields r ++ '\r' :: '\n' :: writeRows rs

/-- Text written by csv.writer (excel dialect: delimiter `,`, quote char
the double quote, doublequote, QUOTE_MINIMAL, CRLF line terminator) into
the StringIO buffer. -/
def writeCsv (rows : List (List String)) : String :=
  String.mk (writeRows rows)

/-- Serialization stage of generate_csv_data (lines 119-130): writeheader
with the fixed fieldnames followed by one row per record, for an
arbitrary record set. -/
def generate_csv_string (records : List CsvRecord) : String :=
  writeCsv (csvFieldnames :: records.map CsvRecord.fields)

/-- Parser mode of the CSV reading automaton: at the start of a cell,
inside an unquoted cell, inside a quoted cell, just after the closing
quote of a quoted section, or just after a bare carriage return. -/
inductive CsvMode where
  | fieldStart
  | plain
  | quoted
  | quoteEnd
  | afterCR
deriving DecidableEq

/-- Parser state: completed rows, completed cells of the current row, the
characters of the current cell, and the mode. -/
structure CsvState where
  rows : List (List String)
  fields : List String
  cur : List Char
  mode : CsvMode

/-- Modelled from the spec: the claim compares the writer against
"parsing the resulting text as CSV"; the repository contains no CSV
reader, so standard CSV reading (the Python csv module's excel dialect)
is modelled here.  Completing a cell at a delimiter. -/
def csvEndField (st : CsvState) : CsvState :=
  { rows := st.rows, fields := st.fields ++ [String.mk st.cur],
    cur := [], mode := CsvMode.fieldStart }

/-- Modelled from the spec: completing a row at a line terminator; a
blank line yields an empty row, as csv.reader does. -/
def csvEndRow (st : CsvState) (m : CsvMode) : CsvState :=
  if st.mode = CsvMode.fieldStart ∧ st.fields = [] then
    { rows := st.rows ++ [[]], fields := [], cur := [], mode := m }
  else
    { rows := st.rows ++ [st.fields ++ [String.mk st.cur]],
      fields := [], cur := [], mode := m }

/-- Modelled from the spec: one reader transition outside the afterCR
mode. -/
def csvStepCore (st : CsvState) (c : Char) : CsvState :=
  match st.mode with
  | CsvMode.quoted =>
      if c = '"' then { st with mode := CsvMode.quoteEnd }
      else { st with cur := st.cur ++ [c] }
  | CsvMode.quoteEnd =>
      if c = '"' then { st with cur := st.cur ++ ['"'], mode := CsvMode.quoted }
      else if c = ',' then csvEndField st
      else if c = '\r' then csvEndRow st CsvMode.afterCR
      else if c = '\n' then csvEndRow st CsvMode.fieldStart
      else { st with cur := st.cur ++ [c], mode := CsvMode.plain }
  | _ =>
      if c = '"' ∧ st.mode = CsvMode.fieldStart then
        { st with mode := CsvMode.quoted }
      else if c = ',' then csvEndField st
      else if c = '\r' then csvEndRow st CsvMode.afterCR
      else if c = '\n' then csvEndRow st CsvMode.fieldStart
      else { st with cur := st.cur ++ [c], mode := CsvMode.plain }

/-- Modelled from the spec: one reader transition; a line feed directly
after a carriage return is part of the same terminator. -/
def csvStep (st : CsvState) (c : Char) : CsvState :=
  if st.mode = CsvMode.afterCR then
    if c = '\n' then { st with mode := CsvMode.fieldStart }
    else csvStepCore { st with mode := CsvMode.fieldStart } c
  else csvStepCore st c

/-- Modelled from the spec: flush of the reader at end of input (a
trailing cell is emitted unless the input ended at a row boundary). -/
def csvFinish (st : CsvState) : List (List String) :=
  match st.mode with
  | CsvMode.afterCR => st.rows
  | CsvMode.fieldStart =>
      if st.fields = [] then st.rows
      else st.rows ++ [st.fields ++ [String.mk st.cur]]
  | _ => st.rows ++ [st.fields ++ [String.mk st.cur]]

/-- Modelled from the spec: parsing a text as CSV (excel dialect). -/
def parseCsv (s : String) : List (List String) :=
  csvFinish (s.data.foldl csvStep
    { rows := [], fields := [], cur := [], mode := CsvMode.fieldStart })

/-- Concrete configuration with the root remote directory, used to
instantiate general theorems. -/
def cfg0 : FTPConfig :=
  { hostname := "ftp.example.com", port := 21, remote_dir := "/", use_tls := false }

/-- Concrete configuration with a non-root remote directory. -/
def cfg7 : FTPConfig :=
  { hostname := "ftp.example.com", port := 21, remote_dir := "/data", use_tls := false }

/-- Server on which every operation succeeds. -/
def srvOk : FTPServer :=
  { connectR := Except.ok (), loginR := Except.ok (), protPR := Except.ok (),
    cwdR := fun _ => Except.ok "250 OK",
    storR := fun _ => Except.ok "226 Transfer complete",
    pwdR := Except.ok "/", nlstR := Except.ok ["a.csv", "b.csv"],
    mkdR := fun _ => Except.ok "257", quitR := Except.ok () }

/-- Server whose stor answers outside the 226 class. -/
def srvStor550 : FTPServer :=
  { srvOk with storR := fun _ => Except.ok "550 Requested action not taken" }

/-- Unreachable server: connecting raises a socket error (a member of
ftplib.all_errors). -/
def srvConnFail : FTPServer :=
  { srvOk with connectR := Except.error (PyExc.ftpOther "Connection refused") }

/-- Server on which changing directory raises 550 error_perm while
everything else succeeds. -/
def srvCwdPerm : FTPServer :=
  { srvOk with cwdR := fun _ => Except.error (PyExc.ftpPerm "550 Failed to change directory.") }

/-- Server on which the directory listing raises while everything else
succeeds. -/
def srvNoList : FTPServer :=
  { srvOk with
      pwdR := Except.ok "/data"
      nlstR := Except.error (PyExc.ftpOther "550 No files found") }

/-- Explicit configuration dict whose password entry is the empty
string. -/
def cBadPassword : PyDict :=
  [("hostname", PyVal.vStr "h"), ("username", PyVal.vStr "u"),
   ("password", PyVal.vStr "")]

/-- Environment with no FTP variables set. -/
def envEmpty : String → Option String := fun _ => none

theorem setup_ok_trace (cfg : FTPConfig) (srv : FTPServer)
    (h : (setupConn cfg srv).1 = Except.ok ()) :
    (setupConn cfg srv).2 =
      [FTPAction.connect, FTPAction.login] ++
        (if cfg.use_tls then [FTPAction.protP] else []) ++
        [FTPAction.setPasv] ++
        (if cfg.remote_dir ≠ "/" then [FTPAction.cwd cfg.remote_dir] else []) := by
  unfold setupConn at h ⊢
  split at h
  · simp at h
  · split at h
    · simp at h
    · split at h
      · simp at h
      · split at h
        · simp at h
        · simp_all

/-- Claim C1: when the binary store operation completes with response
`resp`, upload returns success together with the UTF-8 byte length
exactly when `resp` is in the 226 class; any other completion response
yields success false with the raw response text preserved in the message,
and no exception reaches the caller (the function is total). -/
theorem upload_completion_response_iff (cfg : FTPConfig) (srv : FTPServer)
    (content filename resp : String)
    (hconn : (setupConn cfg srv).1 = Except.ok ())
    (hstor : srv.storR filename = Except.ok resp) :
    (((upload_csv_string cfg srv content filename).1.success = true ∧
      (upload_csv_string cfg srv content filename).1.size_bytes =
        some content.utf8ByteSize) ↔ pyStartswith resp "226" = true) ∧
    (pyStartswith resp "226" = false →
      (upload_csv_string cfg srv content filename).1.success = false ∧
      (upload_csv_string cfg srv content filename).1.message =
        "Unexpected FTP response: " ++ resp) := by
  simp only [upload_csv_string, withFtpConnection]
  rw [hconn, hstor]
  cases hsw : pyStartswith resp "226" <;> simp [hsw]

theorem upload_completion_response_iff_witness :
    (setupConn cfg0 srvOk).1 = Except.ok () ∧
    srvOk.storR "f.csv" = Except.ok "226 Transfer complete" ∧
    (upload_csv_string cfg0 srvOk "a,b" "f.csv").1.success = true ∧
    (upload_csv_string cfg0 srvOk "a,b" "f.csv").1.size_bytes =
      some (("a,b" : String).utf8ByteSize) := by
  have h := (upload_completion_response_iff cfg0 srvOk "a,b" "f.csv"
    "226 Transfer complete" rfl rfl).1.mpr (by decide)
  exact ⟨rfl, rfl, h.1, h.2⟩

theorem string_append_ne_empty (a b : String) (ha : a ≠ "") : a ++ b ≠ "" := by
  intro hc
  apply ha
  have h1 := congrArg String.length hc
  rw [String.length_append] at h1
  rw [show String.length "" = 0 from rfl] at h1
  have h2 : a.length = 0 := by omega
  have h3 : a.data = [] := List.length_eq_zero.mp h2
  exact String.ext (h3.trans rfl)

/-- Claim C2: if any step of the upload (connect, login, TLS protection,
directory change, or transfer) raises, upload returns success false with
the exception text in the error key and a non-empty message; being a
total function, it propagates nothing to its caller. -/
theorem upload_normalizes_errors (cfg : FTPConfig) (srv : FTPServer)
    (content filename : String) (e : PyExc)
    (h : (setupConn cfg srv).1 = Except.error e ∨
         ((setupConn cfg srv).1 = Except.ok () ∧
          srv.storR filename = Except.error e)) :
    (upload_csv_string cfg srv content filename).1.success = false ∧
    (upload_csv_string cfg srv content filename).1.error = some e.msg ∧
    (upload_csv_string cfg srv content filename).1.message ≠ "" := by
  rcases h with h | ⟨hok, hst⟩
  · simp only [upload_csv_string, withFtpConnection]
    rw [h]
    cases e <;>
      simp [uploadFtpErrorResult, PyExc.msg] <;>
      exact string_append_ne_empty _ _ (by decide)
  · simp only [upload_csv_string, withFtpConnection]
    rw [hok, hst]
    cases e <;>
      simp [uploadFtpErrorResult, PyExc.msg] <;>
      exact string_append_ne_empty _ _ (by decide)

theorem upload_normalizes_errors_witness :
    (setupConn cfg0 srvConnFail).1 =
      Except.error (PyExc.ftpOther "Connection refused") ∧
    (upload_csv_string cfg0 srvConnFail "x" "f.csv").1.success = false ∧
    (upload_csv_string cfg0 srvConnFail "x" "f.csv").1.error =
      some (PyExc.ftpOther "Connection refused").msg ∧
    (upload_csv_string cfg0 srvConnFail "x" "f.csv").1.message ≠ "" := by
  have h : (setupConn cfg0 srvConnFail).1 =
      Except.error (PyExc.ftpOther "Connection refused") := rfl
  exact ⟨h, upload_normalizes_errors cfg0 srvConnFail "x" "f.csv" _ (Or.inl h)⟩

/-- Claim C3: whenever a connection object was created (which is every
invocation, since the ftplib constructor itself cannot fail), closing the
control connection is attempted on every exit path of the upload, and the
outcome of the close, success or failure, never changes the result
returned to the caller and is never raised or reported. -/
theorem upload_always_closes_connection (cfg : FTPConfig) (srv : FTPServer)
    (content filename : String) :
    FTPAction.quit ∈ (upload_csv_string cfg srv content filename).2 ∧
    ∀ q2 : Except PyExc Unit,
      (upload_csv_string cfg { srv with quitR := q2 } content filename).1 =
        (upload_csv_string cfg srv content filename).1 := by
  constructor
  · simp only [upload_csv_string, withFtpConnection]
    rcases hs : (setupConn cfg srv).1 with e | u
    · cases e <;> simp
    · rcases hst : srv.storR filename with e | resp
      · cases e <;> simp
      · by_cases hsw : pyStartswith resp "226" = true <;> simp [hsw]
  · intro q2
    rfl

/-- Claim C4: for an explicitly supplied (non-empty, hence actually used)
configuration, construction succeeds exactly when hostname, username and
password are all truthy (non-empty), and otherwise raises the
configuration ValueError naming the missing field; construction consumes
no server oracle, so no network activity can precede the check. -/
theorem init_requires_credentials (c : PyDict) (env : String → Option String)
    (hc : c ≠ ([] : PyDict)) :
    ((∃ c2, FTPClient_init (some c) env = Except.ok c2) ↔
      ((pyGet c "hostname").truthy = true ∧
       (pyGet c "username").truthy = true ∧
       (pyGet c "password").truthy = true)) ∧
    (((pyGet c "hostname").truthy = false ∨
      (pyGet c "username").truthy = false ∨
      (pyGet c "password").truthy = false) →
      ∃ f, FTPClient_init (some c) env =
        Except.error ("FTP configuration missing: " ++ f)) := by
  cases hh : (pyGet c "hostname").truthy <;>
    cases hu : (pyGet c "username").truthy <;>
    cases hp : (pyGet c "password").truthy <;>
    simp [FTPClient_init, hc, validateConfig, hh, hu, hp] <;>
    first
      | exact ⟨"hostname", rfl⟩
      | exact ⟨"username", rfl⟩
      | exact ⟨"password", rfl⟩

theorem init_requires_credentials_witness :
    cBadPassword ≠ ([] : PyDict) ∧
    ∃ f, FTPClient_init (some cBadPassword) envEmpty =
      Except.error ("FTP configuration missing: " ++ f) :=
  ⟨by decide,
   (init_requires_credentials cBadPassword envEmpty (by decide)).2 (by decide)⟩

/-- Claim C10: an explicitly supplied empty configuration dict is falsy,
so the constructor ignores it and reads the environment exactly as when
no configuration is given: the two calls are indistinguishable. -/
theorem falsy_config_falls_back_to_env (env : String → Option String) :
    FTPClient_init (some ([] : PyDict)) env = FTPClient_init none env := by
  simp [FTPClient_init]

theorem not_mem_setup_trace (cfg : FTPConfig) (srv : FTPServer)
    (a : FTPAction)
    (h1 : a ≠ FTPAction.connect) (h2 : a ≠ FTPAction.login)
    (h3 : a ≠ FTPAction.protP) (h4 : a ≠ FTPAction.setPasv)
    (h5 : ∀ d2, a ≠ FTPAction.cwd d2) :
    a ∉ (setupConn cfg srv).2 := by
  unfold setupConn
  split
  · simp [h1]
  · split
    · simp [h1, h2]
    · split
      · by_cases ht : cfg.use_tls <;> simp [ht, h1, h2, h3]
      · split
        · by_cases ht : cfg.use_tls <;> simp [ht, h1, h2, h3, h4, h5]
        · by_cases ht : cfg.use_tls <;>
            by_cases hd : cfg.remote_dir = "/" <;>
              simp [ht, hd, h1, h2, h3, h4, h5]

/-- Claim C7, counterexample: with a non-root remote_dir, test_connection
does attempt the directory change of the shared connection manager, and a
cwd failure makes the whole test fail, contradicting the claim that only
steps 1 to 4 and no directory change are performed. -/
theorem test_connection_changes_directory :
    FTPAction.cwd "/data" ∈ (test_connection cfg7 srvCwdPerm).2 ∧
    (test_connection cfg7 srvCwdPerm).1.success = false := by
  decide

/-- Claim C7, amended: test_connection runs the full connection workflow
of ftp_connection, steps 1 to 5, performing the directory change into
remote_dir exactly when it is not the root; after a successful
connection it queries the working directory and at most five entries of
the listing, where a listing failure degrades to a placeholder value in
a still-successful result, and it never attempts a store or mkd. -/
theorem test_connection_amended (cfg : FTPConfig) (srv : FTPServer)
    (d : String)
    (hconn : (setupConn cfg srv).1 = Except.ok ())
    (hpwd : srv.pwdR = Except.ok d) :
    (test_connection cfg srv).1.success = true ∧
    (test_connection cfg srv).1.current_directory = some d ∧
    (∃ l, (test_connection cfg srv).1.sample_files = some l ∧
      l.length ≤ 5) ∧
    (∀ e, srv.nlstR = Except.error e →
      (test_connection cfg srv).1.sample_files =
        some ["(unable to list files)"]) ∧
    (FTPAction.cwd cfg.remote_dir ∈ (test_connection cfg srv).2 ↔
      cfg.remote_dir ≠ "/") ∧
    (∀ f, FTPAction.stor f ∉ (test_connection cfg srv).2) ∧
    (∀ d2, FTPAction.mkd d2 ∉ (test_connection cfg srv).2) := by
  have htr := setup_ok_trace cfg srv hconn
  simp only [test_connection, withFtpConnection]
  rw [hconn, hpwd]
  rcases hn : srv.nlstR with e | l <;>
    by_cases hd : cfg.remote_dir = "/" <;>
      by_cases ht : cfg.use_tls <;>
        simp [htr, hn, hd, ht, List.length_take]

theorem test_connection_amended_witness :
    (setupConn cfg7 srvNoList).1 = Except.ok () ∧
    srvNoList.pwdR = Except.ok "/data" ∧
    srvNoList.nlstR = Except.error (PyExc.ftpOther "550 No files found") ∧
    (test_connection cfg7 srvNoList).1.success = true ∧
    (test_connection cfg7 srvNoList).1.sample_files =
      some ["(unable to list files)"] ∧
    (FTPAction.cwd "/data" ∈ (test_connection cfg7 srvNoList).2 ↔
      ("/data" : String) ≠ "/") := by
  have h := test_connection_amended cfg7 srvNoList "/data" rfl rfl
  exact ⟨rfl, rfl, rfl, h.1, h.2.2.2.1 _ rfl, h.2.2.2.2.1⟩

/-- Claim C8: create_directory_if_not_exists returns true exactly when
the connection succeeds and either the change into the directory
succeeds or it raises error_perm (the does-not-exist class) and the
subsequent mkd succeeds; on a successful connection the change into the
path is always attempted, and mkd is attempted exactly when the change
failed with error_perm.  Any other failure yields false, and the
function is total, so nothing is raised to the caller. -/
theorem create_directory_branches (cfg : FTPConfig) (srv : FTPServer)
    (d : String) :
    ((create_directory_if_not_exists cfg srv d).1 = true ↔
      ((setupConn cfg srv).1 = Except.ok () ∧
       ((∃ s, srv.cwdR d = Except.ok s) ∨
        ((∃ m, srv.cwdR d = Except.error (PyExc.ftpPerm m)) ∧
         (∃ s, srv.mkdR d = Except.ok s))))) ∧
    ((setupConn cfg srv).1 = Except.ok () →
      FTPAction.cwd d ∈ (create_directory_if_not_exists cfg srv d).2) ∧
    (FTPAction.mkd d ∈ (create_directory_if_not_exists cfg srv d).2 ↔
      ((setupConn cfg srv).1 = Except.ok () ∧
       ∃ m, srv.cwdR d = Except.error (PyExc.ftpPerm m))) := by
  have hnm := not_mem_setup_trace cfg srv (FTPAction.mkd d)
    (by simp) (by simp) (by simp) (by simp) (by simp)
  simp only [create_directory_if_not_exists, withFtpConnection]
  rcases hs : (setupConn cfg srv).1 with e | u
  · cases e <;> simp [List.mem_append, hnm]
  · rcases hc : srv.cwdR d with e | s
    · cases e with
      | ftpPerm m =>
          rcases hm : srv.mkdR d with e2 | s2
          · cases e2 <;> simp [List.mem_append, hnm, hm]
          · simp [List.mem_append, hnm, hm]
      | ftpOther m => simp [List.mem_append, hnm]
      | other m => simp [List.mem_append, hnm]
    · simp [List.mem_append, hnm]

theorem create_directory_branches_witness :
    (setupConn cfg0 srvCwdPerm).1 = Except.ok () ∧
    (create_directory_if_not_exists cfg0 srvCwdPerm "/newdir").1 = true ∧
    FTPAction.cwd "/newdir" ∈
      (create_directory_if_not_exists cfg0 srvCwdPerm "/newdir").2 ∧
    FTPAction.mkd "/newdir" ∈
      (create_directory_if_not_exists cfg0 srvCwdPerm "/newdir").2 := by
  have h := create_directory_branches cfg0 srvCwdPerm "/newdir"
  refine ⟨rfl, ?_, ?_, ?_⟩
  · exact h.1.mpr ⟨rfl,
      Or.inr ⟨⟨"550 Failed to change directory.", rfl⟩, ⟨"257", rfl⟩⟩⟩
  · exact h.2.1 rfl
  · exact h.2.2.mpr ⟨rfl, ⟨"550 Failed to change directory.", rfl⟩⟩

theorem gen_sample_get (now : PyDateTime) (draws : Nat → ℚ)
    (hours_back : Nat) (j : Nat)
    (hj : j < (generate_sample_data now draws hours_back).length) :
    (generate_sample_data now draws hours_back).get ⟨j, hj⟩ =
      makeRecord
        (now.subMinutes (15 * ((hours_back * 4 - 1 - j : Nat) : Int)))
        (draws (hours_back * 4 - 1 - j)) := by
  simp only [generate_sample_data, List.get_eq_getElem]
  rw [List.getElem_reverse]
  simp [List.getElem_map, List.getElem_range]

/-- Claim C5: generate_sample_data returns exactly hours_back * 4
records, ordered strictly oldest first to newest last, with consecutive
records exactly 15 minutes (900 seconds) apart. -/
theorem generate_sample_data_spacing (now : PyDateTime) (draws : Nat → ℚ)
    (h : Nat) (hp : 0 < h) :
    (generate_sample_data now draws h).length = h * 4 ∧
    (∀ (j : Nat) (hj : j + 1 < (generate_sample_data now draws h).length),
      ((generate_sample_data now draws h).get ⟨j + 1, hj⟩).timestamp.seconds =
        ((generate_sample_data now draws h).get
            ⟨j, Nat.lt_of_succ_lt hj⟩).timestamp.seconds + 900 ∧
      ((generate_sample_data now draws h).get
            ⟨j, Nat.lt_of_succ_lt hj⟩).timestamp.seconds <
        ((generate_sample_data now draws h).get ⟨j + 1, hj⟩).timestamp.seconds) := by
  have hlen : (generate_sample_data now draws h).length = h * 4 := by
    simp [generate_sample_data]
  refine ⟨hlen, ?_⟩
  intro j hj
  have hj2 := hj
  rw [hlen] at hj2
  rw [gen_sample_get, gen_sample_get]
  simp only [makeRecord, PyDateTime.subMinutes]
  omega

theorem generate_sample_data_spacing_witness :
    (0 : Nat) < 1 ∧
    (generate_sample_data ⟨0⟩ (fun _ => 1) 1).length = 1 * 4 :=
  ⟨by decide, (generate_sample_data_spacing ⟨0⟩ (fun _ => 1) 1 (by decide)).1⟩

/-- Claim C6: every record produced by the generator, historical or
current, has a non-negative visitor_count, whatever the timestamp and
whatever rational value the random source draws (in particular any value
in [0.7, 1.3]), because of the final clamp at 0. -/
theorem visitor_count_nonneg :
    (∀ (now : PyDateTime) (draws : Nat → ℚ) (hours_back : Nat)
        (r : VisitorRecord),
      r ∈ generate_sample_data now draws hours_back →
        0 ≤ r.visitor_count) ∧
    (∀ (now : PyDateTime) (draw : ℚ),
      0 ≤ (generate_current_data now draw).visitor_count) := by
  have hcalc : ∀ (ts : PyDateTime) (v : ℚ),
      0 ≤ calculate_visitor_count ts v := by
    intro ts v
    simp only [calculate_visitor_count]
    exact le_max_left 0 _
  constructor
  · intro now draws hb r hr
    simp only [generate_sample_data, List.mem_reverse, List.mem_map] at hr
    obtain ⟨i, hi, rfl⟩ := hr
    simpa [makeRecord] using hcalc _ _
  · intro now draw
    simpa [generate_current_data, makeRecord] using hcalc _ _

theorem visitor_count_nonneg_witness :
    makeRecord ⟨-2700⟩ 1 ∈ generate_sample_data ⟨0⟩ (fun _ => 1) 1 ∧
    0 ≤ (makeRecord ⟨-2700⟩ 1).visitor_count := by
  have hm : makeRecord ⟨-2700⟩ 1 ∈ generate_sample_data ⟨0⟩ (fun _ => 1) 1 := by
    simp only [generate_sample_data, List.mem_reverse, List.mem_map]
    exact ⟨3, by simp, by norm_num [PyDateTime.subMinutes]⟩
  exact ⟨hm, visitor_count_nonneg.1 ⟨0⟩ (fun _ => 1) 1 _ hm⟩

theorem string_mk_data (s : String) : String.mk s.data = s := rfl

theorem csvStep_ordinary (rows : List (List String)) (fields : List String)
    (cur : List Char) (m : CsvMode) (c : Char)
    (hm : m = CsvMode.fieldStart ∨ m = CsvMode.plain)
    (hc1 : c ≠ ',') (hc2 : c ≠ '"') (hc3 : c ≠ '\r') (hc4 : c ≠ '\n') :
    csvStep ⟨rows, fields, cur, m⟩ c =
      ⟨rows, fields, cur ++ [c], CsvMode.plain⟩ := by
  rcases hm with rfl | rfl <;>
    simp [csvStep, csvStepCore, hc1, hc2, hc3, hc4]

theorem csvRun_ordinary (cs : List Char) (rows : List (List String))
    (fields : List String) (cur : List Char) (m : CsvMode)
    (hm : m = CsvMode.fieldStart ∨ m = CsvMode.plain)
    (hcs : needsQuoting cs = false) :
    List.foldl csvStep ⟨rows, fields, cur, m⟩ cs =
      ⟨rows, fields, cur ++ cs,
        if cs = [] then m else CsvMode.plain⟩ := by
  induction cs generalizing cur m with
  | nil => simp
  | cons c cs ih =>
      simp only [needsQuoting, List.any_cons, Bool.or_eq_false_iff,
        beq_eq_false_iff_ne] at hcs
      obtain ⟨⟨⟨⟨hc1, hc2⟩, hc3⟩, hc4⟩, hrest⟩ := hcs
      rw [List.foldl_cons,
        csvStep_ordinary rows fields cur m c hm hc1 hc2 hc3 hc4,
        ih (cur ++ [c]) CsvMode.plain (Or.inr rfl) hrest]
      simp

theorem csvRun_escaped (cs : List Char) (rows : List (List String))
    (fields : List String) (cur : List Char) :
    List.foldl csvStep ⟨rows, fields, cur, CsvMode.quoted⟩ (escapeQuotes cs) =
      ⟨rows, fields, cur ++ cs, CsvMode.quoted⟩ := by
  induction cs generalizing cur with
  | nil => simp [escapeQuotes]
  | cons c cs ih =>
      by_cases hc : c = '"'
      · subst hc
        have he : escapeQuotes ('"' :: cs) = '"' :: '"' :: escapeQuotes cs := by
          simp [escapeQuotes]
        rw [he, List.foldl_cons, List.foldl_cons]
        have s1 : csvStep ⟨rows, fields, cur, CsvMode.quoted⟩ '"' =
            ⟨rows, fields, cur, CsvMode.quoteEnd⟩ := by
          simp [csvStep, csvStepCore]
        have s2 : csvStep ⟨rows, fields, cur, CsvMode.quoteEnd⟩ '"' =
            ⟨rows, fields, cur ++ ['"'], CsvMode.quoted⟩ := by
          simp [csvStep, csvStepCore]
        rw [s1, s2, ih (cur ++ ['"'])]
        simp
      · have he : escapeQuotes (c :: cs) = c :: escapeQuotes cs := by
          simp [escapeQuotes, hc]
        rw [he, List.foldl_cons]
        have s1 : csvStep ⟨rows, fields, cur, CsvMode.quoted⟩ c =
            ⟨rows, fields, cur ++ [c], CsvMode.quoted⟩ := by
          simp [csvStep, csvStepCore, hc]
        rw [s1, ih (cur ++ [c])]
        simp

theorem csvRun_field (f : String) (rows : List (List String))
    (fields : List String) :
    ∃ m, List.foldl csvStep ⟨rows, fields, [], CsvMode.fieldStart⟩
          (encodeField f) =
        ⟨rows, fields, f.data, m⟩ ∧
      (m = CsvMode.fieldStart ∨ m = CsvMode.plain ∨ m = CsvMode.quoteEnd) ∧
      (m = CsvMode.fieldStart → f.data = []) := by
  by_cases hq : needsQuoting f.data = true
  · refine ⟨CsvMode.quoteEnd, ?_, Or.inr (Or.inr rfl), by simp⟩
    simp only [encodeField, if_pos hq]
    rw [List.foldl_cons]
    have s1 : csvStep ⟨rows, fields, [], CsvMode.fieldStart⟩ '"' =
        ⟨rows, fields, [], CsvMode.quoted⟩ := by
      simp [csvStep, csvStepCore]
    rw [s1, List.foldl_append, csvRun_escaped]
    have s2 : csvStep ⟨rows, fields, [] ++ f.data, CsvMode.quoted⟩ '"' =
        ⟨rows, fields, [] ++ f.data, CsvMode.quoteEnd⟩ := by
      simp [csvStep, csvStepCore]
    rw [List.foldl_cons, s2]
    simp
  · have hq2 : needsQuoting f.data = false := by
      simpa using hq
    refine ⟨if f.data = [] then CsvMode.fieldStart else CsvMode.plain,
      ?_, ?_, ?_⟩
    · simp only [encodeField, hq2, Bool.false_eq_true, if_false]
      rw [csvRun_ordinary f.data rows fields [] CsvMode.fieldStart
        (Or.inl rfl) hq2]
      simp
    · by_cases h0 : f.data = [] <;> simp [h0]
    · by_cases h0 : f.data = [] <;> simp [h0]

theorem csvStep_comma (rows : List (List String)) (fields : List String)
    (cur : List Char) (m : CsvMode)
    (hm : m = CsvMode.fieldStart ∨ m = CsvMode.plain ∨ m = CsvMode.quoteEnd) :
    csvStep ⟨rows, fields, cur, m⟩ ',' =
      ⟨rows, fields ++ [String.mk cur], [], CsvMode.fieldStart⟩ := by
  rcases hm with rfl | rfl | rfl <;>
    simp [csvStep, csvStepCore, csvEndField]

theorem csvStep_cr (rows : List (List String)) (fields : List String)
    (cur : List Char) (m : CsvMode)
    (hm : m = CsvMode.fieldStart ∨ m = CsvMode.plain ∨ m = CsvMode.quoteEnd)
    (hne : ¬(m = CsvMode.fieldStart ∧ fields = [])) :
    csvStep ⟨rows, fields, cur, m⟩ '\r' =
      ⟨rows ++ [fields ++ [String.mk cur]], [], [], CsvMode.afterCR⟩ := by
  rcases hm with rfl | rfl | rfl
  · have hf : fields ≠ [] := fun h => hne ⟨rfl, h⟩
    simp [csvStep, csvStepCore, csvEndRow, hf]
  · simp [csvStep, csvStepCore, csvEndRow]
  · simp [csvStep, csvStepCore, csvEndRow]

theorem csvStep_lf_afterCR (rows : List (List String))
    (fields : List String) (cur : List Char) :
    csvStep ⟨rows, fields, cur, CsvMode.afterCR⟩ '\n' =
      ⟨rows, fields, cur, CsvMode.fieldStart⟩ := by
  simp [csvStep]

theorem encodeFields_cons (f : String) (rest : List String)
    (h : rest ≠ []) :
    encodeFields (f :: rest) = encodeField f ++ (',' :: encodeFields rest) := by
  cases rest with
  | nil => exact absurd rfl h
  | cons g gs => rfl

theorem csvRun_fields (init : List String) (last : String)
    (rows : List (List String)) (fields : List String) :
    ∃ m, List.foldl csvStep ⟨rows, fields, [], CsvMode.fieldStart⟩
          (encodeFields (init ++ [last])) =
        ⟨rows, fields ++ init, last.data, m⟩ ∧
      (m = CsvMode.fieldStart ∨ m = CsvMode.plain ∨ m = CsvMode.quoteEnd) ∧
      (m = CsvMode.fieldStart → last.data = []) := by
  induction init generalizing rows fields with
  | nil =>
      obtain ⟨m, h1, h2, h3⟩ := csvRun_field last rows fields
      exact ⟨m, by simpa [encodeFields] using h1, h2, h3⟩
  | cons f init ih =>
      obtain ⟨m0, h1, h2, _⟩ := csvRun_field f rows fields
      rw [show (f :: init) ++ [last] = f :: (init ++ [last]) from rfl,
        encodeFields_cons f (init ++ [last]) (by simp),
        List.foldl_append, h1, List.foldl_cons,
        csvStep_comma rows fields f.data m0 h2, string_mk_data]
      obtain ⟨m, k1, k2, k3⟩ := ih rows (fields ++ [f])
      refine ⟨m, ?_, k2, k3⟩
      rw [k1]
      simp

theorem csvRun_row (fs : List String) (rows : List (List String))
    (hne : fs ≠ []) (hne2 : fs ≠ [""]) :
    List.foldl csvStep ⟨rows, [], [], CsvMode.fieldStart⟩
        (encodeFields fs ++ ['\r', '\n']) =
      ⟨rows ++ [fs], [], [], CsvMode.fieldStart⟩ := by
  obtain ⟨init, last, rfl⟩ : ∃ i l, fs = i ++ [l] :=
    ⟨fs.dropLast, fs.getLast hne, (List.dropLast_append_getLast hne).symm⟩
  obtain ⟨m, h1, h2, h3⟩ := csvRun_fields init last rows []
  simp only [List.nil_append] at h1
  have hnb : ¬(m = CsvMode.fieldStart ∧ init = []) := by
    rintro ⟨hm0, rfl⟩
    apply hne2
    have hl : last = "" := String.ext (by simpa using h3 hm0)
    simp [hl]
  rw [List.foldl_append, h1,
    show (['\r', '\n'] : List Char) = '\r' :: ['\n'] from rfl,
    List.foldl_cons, csvStep_cr rows init last.data m h2 hnb,
    string_mk_data, List.foldl_cons, csvStep_lf_afterCR, List.foldl_nil]

theorem csvRun_rows (rs : List (List String))
    (rows0 : List (List String))
    (hr : ∀ r ∈ rs, r ≠ [] ∧ r ≠ [""]) :
    List.foldl csvStep ⟨rows0, [], [], CsvMode.fieldStart⟩ (writeRows rs) =
      ⟨rows0 ++ rs, [], [], CsvMode.fieldStart⟩ := by
  induction rs generalizing rows0 with
  | nil => simp [writeRows]
  | cons r rs ih =>
      have h1 := hr r (by simp)
      have hw : writeRows (r :: rs) =
          (encodeFields r ++ ['\r', '\n']) ++ writeRows rs := by
        simp [writeRows]
      rw [hw, List.foldl_append, csvRun_row r rows0 h1.1 h1.2,
        ih (rows0 ++ [r]) (fun r2 hr2 => hr r2 (by simp [hr2]))]
      simp

theorem parse_writeCsv (rs : List (List String))
    (hr : ∀ r ∈ rs, r ≠ [] ∧ r ≠ [""]) :
    parseCsv (writeCsv rs) = rs := by
  unfold parseCsv writeCsv
  rw [show (String.mk (writeRows rs)).data = writeRows rs from rfl,
    csvRun_rows rs [] hr]
  simp [csvFinish]

/-- Claim C9: serializing any record set (0, 1 or N rows) to CSV with the
fixed header and then parsing the text back as CSV yields exactly the
header and the records field for field. -/
theorem csv_round_trip (records : List CsvRecord) :
    parseCsv (generate_csv_string records) =
      csvFieldnames :: records.map CsvRecord.fields := by
  unfold generate_csv_string
  apply parse_writeCsv
  intro r hr
  rcases List.mem_cons.mp hr with rfl | hmem
  · constructor <;> decide
  · obtain ⟨rec, _, rfl⟩ := List.mem_map.mp hmem
    constructor <;> simp [CsvRecord.fields]
